import Mathlib

/-!
# Account controller (`src/controllers/user.controller.js`)

A shallow embedding of the request handlers of the user controller.  Every
handler is a function from the collaborators' behaviour (`Env`), the state of
the backing store (`World`) and the request to the outcome of the handler
(a response, or the error it throws) together with the store after the call.
-/

namespace UserController

/-! ## JavaScript values -/

/-- Scalar JavaScript values that occur in the handlers. -/
inductive JsVal where
  | undefined
  | null
  | bool (b : Bool)
  | num (n : Nat)
  | str (s : String)
deriving DecidableEq, Repr

/-- Truthiness of an optional string: `undefined` and the empty string are falsy. -/
def truthy : Option String → Bool
  | none => false
  | some s => decide (s ≠ "")

/-- Lifting of an optional string, `none` being `undefined`. -/
def JsVal.ofOption : Option String → JsVal
  | none => .undefined
  | some s => .str s

/-- The operator `a || b` on optional strings. -/
def jsOr (a b : Option String) : Option String :=
  if truthy a then a else b

/-- White space and line terminators removed by `String.prototype.trim`. -/
def isJsWhiteSpace (c : Char) : Bool :=
  c.toNat ∈ [0x09, 0x0A, 0x0B, 0x0C, 0x0D, 0x20, 0xA0, 0x1680, 0x2028, 0x2029,
    0x202F, 0x205F, 0x3000, 0xFEFF] ∨ (0x2000 ≤ c.toNat ∧ c.toNat ≤ 0x200A)

/-- The method `String.prototype.trim`. -/
def jsTrim (s : String) : String :=
  ⟨((s.data.dropWhile isJsWhiteSpace).reverse.dropWhile isJsWhiteSpace).reverse⟩

/-- A plain object with scalar properties, in insertion order. -/
abbrev Doc := List (String × JsVal)

/-- Property read `obj.key`; a property the object does not have reads as `undefined`.
Destructuring `const {key} = obj` is this read. -/
def getProp (obj : Doc) (key : String) : JsVal :=
  match obj.find? (fun kv => kv.1 = key) with
  | some kv => kv.2
  | none => .undefined

/-- Whether the object has a property of that name. -/
def hasProp (obj : Doc) (key : String) : Bool :=
  obj.any (fun kv => kv.1 = key)

/-- Values of the aggregation language: a scalar, an array of scalars, or an
array of documents. -/
inductive AggVal where
  | scalar (v : JsVal)
  | array (vs : List JsVal)
  | docs (ds : List Doc)
deriving DecidableEq, Repr

/-- A document flowing through an aggregation pipeline. -/
abbrev AggDoc := List (String × AggVal)

/-! ## Data model -/

/-- Modelled from the spec: the schema `models/user.model.js` is not part of the
sources; the stored fields are those of the data model of the specification.
`refreshToken` is `none` while the field is unset. -/
structure User where
  _id : Nat
  username : String
  email : String
  fullName : String
  password : String
  avatar : String
  coverImage : String
  refreshToken : Option String
deriving DecidableEq, Repr

/-- Modelled from the spec: a subscription edge from `subscriber` to `channel`. -/
structure Subscription where
  subscriber : Nat
  channel : Nat
deriving DecidableEq, Repr

/-- The document of a stored user as it is serialised; an unset field is absent. -/
def User.toDoc (u : User) : Doc :=
  [("_id", .num u._id), ("username", .str u.username), ("email", .str u.email),
   ("fullName", .str u.fullName), ("avatar", .str u.avatar),
   ("coverImage", .str u.coverImage), ("password", .str u.password)] ++
  (match u.refreshToken with
   | some t => [("refreshToken", .str t)]
   | none => [])

/-- Query projection `.select("-a -b")`: the listed fields are excluded. -/
def select (excluded : List String) (d : Doc) : Doc :=
  d.filter (fun kv => !(excluded.contains kv.1))

/-- The object passed to `User.create` by `registerUser`. -/
structure CreateArgs where
  fullName : Option String
  avatar : Option String
  coverImage : String
  email : Option String
  password : Option String
  username : String
deriving DecidableEq, Repr

/-- Calls made to the collaborators that write or sign, in the order they happen. -/
inductive Call where
  | upload (localFilePath : Option String)
  | create (args : CreateArgs)
  | signAccess (userId : Nat)
  | signRefresh (userId : Nat)
  | save (userId : Nat)
  | findByIdAndUpdate (userId : Option Nat)
deriving DecidableEq, Repr

/-- State of the backing store, and the collaborator calls made so far. -/
structure World where
  users : List User
  subscriptions : List Subscription
  calls : List Call
deriving DecidableEq, Repr

/-- What a handler throws. `api` is `new ApiError(statusCode, message)`; the other
constructors are the exceptions raised by the language and by collaborators. -/
inductive Err where
  | api (statusCode : Nat) (message : String)
  | typeError (message : String)
  | referenceError (message : String)
  | thrown (message : String)
deriving DecidableEq, Repr

/-- The property `error.message`. -/
def Err.message : Err → String
  | .api _ m => m
  | .typeError m => m
  | .referenceError m => m
  | .thrown m => m

/-- What `uploadOnCloudinary` gives back: an exception, `null`, or the upload
response with its `url` property. -/
inductive UploadResult where
  | threw (message : String)
  | null
  | response (url : Option String)
deriving DecidableEq, Repr

/-- Behaviour of the collaborators during one request.  None of them is part of
the sources; the handlers are verified for every behaviour. -/
structure Env where
  /-- the method `String.prototype.toLowerCase` -/
  toLowerCase : String → String
  /-- the helper `uploadOnCloudinary(localFilePath)` -/
  uploadOnCloudinary : Option String → UploadResult
  /-- the call `User.create(args)`: the stored document, or `none` when it throws -/
  create : List User → CreateArgs → Option User
  /-- the method `user.isPasswordCorrect(password)`, `none` when it throws -/
  isPasswordCorrect : User → Option String → Option Bool
  /-- the method `user.generateAccessToken()`, `none` when it throws -/
  generateAccessToken : User → Option String
  /-- the method `user.generateRefreshToken()`, `none` when it throws -/
  generateRefreshToken : User → Option String
  /-- whether `user.save` of the given document succeeds -/
  save : User → Bool
  /-- the call `jwt.verify(token, REFRESH_TOKEN_SECRET)`: the `_id` of the decoded
  payload, or the message of the exception -/
  jwtVerify : String → Except String (Option Nat)
  /-- whether `User.findByIdAndUpdate` with the given fields succeeds -/
  updateAccepted : Option Nat → String → String → Bool

/-! ## Requests and responses -/

/-- A file stored by the upload middleware. -/
structure File where
  path : String
deriving DecidableEq, Repr

/-- The object `req.files` of a multipart request: one array per uploaded field. -/
structure Files where
  avatar : Option (List File)
  coverImage : Option (List File)
deriving DecidableEq, Repr

/-- The text fields of `req.body`; a field that was not sent is `none`. -/
structure Body where
  fullName : Option String := none
  email : Option String := none
  username : Option String := none
  password : Option String := none
  refreshToken : Option String := none
deriving DecidableEq, Repr

/-- The parts of the request the handlers read.  `userId` is `req.user?._id`,
`paramsUsername` is `req.params.username`, `cookieRefreshToken` is
`req.cookies.refreshToken`.  The objects `req.body`, `req.params` and
`req.cookies` exist, as the body and cookie middleware provide them. -/
structure Request where
  body : Body := {}
  paramsUsername : Option String := none
  cookieRefreshToken : Option String := none
  files : Option Files := none
  file : Option File := none
  userId : Option Nat := none
deriving DecidableEq, Repr

/-- The data of a response body. -/
inductive Payload where
  /-- a document, or `null` -/
  | doc (d : Option Doc)
  /-- the object `{user, accessToken, refreshToken}` of `loginUser` -/
  | login (user : Option Doc) (accessToken refreshToken : JsVal)
  /-- the object `{accessToken, newRefreshToken}` of `refreshAccessToken` -/
  | refresh (accessToken newRefreshToken : JsVal)
  /-- the first document of an aggregation result -/
  | aggregated (d : AggDoc)
deriving DecidableEq, Repr

/-- The value `new ApiResponse(statusCode, data, message)`. -/
structure ApiResponse where
  statusCode : Nat
  data : Payload
  message : String
deriving DecidableEq, Repr

/-- A cookie set with `res.cookie(name, value, {httpOnly, secure})`. -/
structure Cookie where
  name : String
  value : JsVal
  httpOnly : Bool
  secure : Bool
deriving DecidableEq, Repr

/-- The response `res.status(status).cookie(..).json(body)`. -/
structure Response where
  status : Nat
  cookies : List Cookie
  json : ApiResponse
deriving DecidableEq, Repr

/-- Outcome of a handler: what it returns or throws, and the world afterwards. -/
abbrev Outcome := Except Err Response × World

/-! ## Store operations -/

/-- The query `User.findById(id)`; `findById(undefined)` finds nothing. -/
def findById (users : List User) (id : Option Nat) : Option User :=
  match id with
  | none => none
  | some i => users.find? (fun u => u._id = i)

/-- Modelled from the spec: the query `User.findOne({$or: [{username}, {email}]})`
on the model declared in `models/user.model.js`, which is not part of the sources.
The data model of the specification makes `username` and `email` case-normalized
(lowercase) strings: the model lowercases the values given for these two fields,
in a filter as in a stored document, before it compares them.  Stored usernames
and emails are strings, so an `undefined` criterion matches no user. -/
def findOne (env : Env) (users : List User) (username email : Option String) :
    Option User :=
  users.find? (fun u => username.map env.toLowerCase = some u.username ∨
    email.map env.toLowerCase = some u.email)

/-- Update of the first document with the given `_id`. -/
def updateById (users : List User) (id : Nat) (f : User → User) : List User :=
  match users with
  | [] => []
  | u :: rest => if u._id = id then f u :: rest else u :: updateById rest id f

/-- The call `uploadOnCloudinary(path)`, recorded. -/
def callUpload (env : Env) (w : World) (path : Option String) : UploadResult × World :=
  (env.uploadOnCloudinary path, { w with calls := w.calls ++ [.upload path] })

/-! ## Token generation -/

/-- The body of the `try` block of `generateAccessAndRefreshTokens`. -/
def generateTokensTry (env : Env) (w : World) (userId : Nat) : Except Err Doc × World :=
  match findById w.users (some userId) with
  | none =>
    -- `user` is null, so `user.generateAccessToken()` raises a TypeError
    (.error (.typeError "Cannot read properties of null (reading generateAccessToken)"), w)
  | some user =>
    let w1 := { w with calls := w.calls ++ [.signAccess user._id] }
    match env.generateAccessToken user with
    | none => (.error (.thrown "generateAccessToken failed"), w1)
    | some accessToken =>
      let w2 := { w1 with calls := w1.calls ++ [.signRefresh user._id] }
      match env.generateRefreshToken user with
      | none => (.error (.thrown "generateRefreshToken failed"), w2)
      | some refreshToken =>
        -- user.refreshToken = refreshToken
        let user1 := { user with refreshToken := some refreshToken }
        let w3 := { w2 with calls := w2.calls ++ [.save user._id] }
        if env.save user1 then
          let users1 := updateById w3.users user._id
            (fun u => { u with refreshToken := some refreshToken })
          (.ok [("accessToken", .str accessToken), ("refreshToken", .str refreshToken)],
           { w3 with users := users1 })
        else
          (.error (.thrown "save failed"), w3)

/-- The helper `generateAccessAndRefreshTokens(userId)`: whatever the `try` block
throws is replaced by `ApiError(500)`. -/
def generateAccessAndRefreshTokens (env : Env) (w : World) (userId : Nat) :
    Except Err Doc × World :=
  match generateTokensTry env w userId with
  | (.ok tokens, w1) => (.ok tokens, w1)
  | (.error _, w1) =>
    (.error (.api 500 "Something went wrong while generating tokens"), w1)

/-! ## registerUser -/

/-- The expression `req.files?.avatar[0]?.path`: only `req.files` is guarded, the
index `[0]` is applied to `req.files.avatar` whatever it is. -/
def avatarLocalPathOf (files : Option Files) : Except Err (Option String) :=
  match files with
  | none => .ok none
  | some fs =>
    match fs.avatar with
    | none => .error (.typeError "Cannot read properties of undefined (reading 0)")
    | some arr => .ok (arr.head?.map File.path)

/-- The guarded read of `req.files.coverImage[0].path` (source lines 56 to 59). -/
def coverImageLocalPathOf (files : Option Files) : Option String :=
  match files with
  | none => none
  | some fs =>
    match fs.coverImage with
    | none => none
    | some [] => none
    | some (f :: _) => some f.path

/-- The handler `registerUser`. -/
def registerUser (env : Env) (w : World) (req : Request) : Outcome :=
  let fullName := req.body.fullName
  let email := req.body.email
  let username := req.body.username
  let password := req.body.password
  if [fullName, email, username, password].any
      (fun field => decide (field.map jsTrim = some "")) then
    (.error (.api 400 "All fields are required"), w)
  else
  let existedUser := findOne env w.users username email
  if existedUser.isSome then
    (.error (.api 409 "User with email and username already exists"), w)
  else
  match avatarLocalPathOf req.files with
  | .error e => (.error e, w)
  | .ok avatarLocalPath =>
  let coverImageLocalPath := coverImageLocalPathOf req.files
  if !truthy avatarLocalPath then
    (.error (.api 400 "Avatar is required"), w)
  else
  match callUpload env w avatarLocalPath with
  | (.threw m, w1) => (.error (.thrown m), w1)
  | (avatar, w1) =>
  match callUpload env w1 coverImageLocalPath with
  | (.threw m, w2) => (.error (.thrown m), w2)
  | (coverImage, w2) =>
  match avatar with
  | .threw m => (.error (.thrown m), w2)
  | .null => (.error (.api 400 "Avatar upload failed"), w2)
  | .response avatarUrl =>
  -- coverImage?.url || ""
  let coverImageUrl : String :=
    match coverImage with
    | .response (some url) => url
    | _ => ""
  match username with
  | none =>
    -- username.toLowerCase() on undefined, while the argument of User.create is built
    (.error (.typeError "Cannot read properties of undefined (reading toLowerCase)"), w2)
  | some uname =>
  let args : CreateArgs :=
    { fullName := fullName, avatar := avatarUrl, coverImage := coverImageUrl,
      email := email, password := password, username := env.toLowerCase uname }
  let w3 := { w2 with calls := w2.calls ++ [.create args] }
  match env.create w2.users args with
  | none => (.error (.thrown "User.create failed"), w3)
  | some user =>
  let w4 := { w3 with users := w3.users ++ [user] }
  let createdUser :=
    (findById w4.users (some user._id)).map
      (fun u => select ["password", "refreshToken"] u.toDoc)
  match createdUser with
  | none => (.error (.api 500 "User creation failed"), w4)
  | some d =>
    (.ok { status := 201, cookies := [],
           json := ⟨200, .doc (some d), "User registred successfully"⟩ }, w4)

/-! ## loginUser -/

/-- The cookie `name=value` with the options `httpOnly: true, secure: true`. -/
def secureCookie (name : String) (value : JsVal) : Cookie :=
  { name := name, value := value, httpOnly := true, secure := true }

/-- The handler `loginUser`. -/
def loginUser (env : Env) (w : World) (req : Request) : Outcome :=
  let email := req.body.email
  let username := req.body.username
  let password := req.body.password
  if !truthy username && !truthy email then
    (.error (.api 400 "Username or email is required"), w)
  else
  match findOne env w.users username email with
  | none => (.error (.api 400 "User not found"), w)
  | some user =>
  match env.isPasswordCorrect user password with
  | none => (.error (.thrown "isPasswordCorrect failed"), w)
  | some false => (.error (.api 401 "Incorrect password"), w)
  | some true =>
  match generateAccessAndRefreshTokens env w user._id with
  | (.error e, w1) => (.error e, w1)
  | (.ok tokens, w1) =>
  -- const {accessToken, refreshToken} = tokens
  let accessToken := getProp tokens "accessToken"
  let refreshToken := getProp tokens "refreshToken"
  let loggedInUser :=
    (findById w1.users (some user._id)).map
      (fun u => select ["password", "refreshToken"] u.toDoc)
  (.ok { status := 200,
         cookies := [secureCookie "accessToken" accessToken,
                     secureCookie "refreshToken" refreshToken],
         json := ⟨200, .login loggedInUser accessToken refreshToken,
                  "User logged in successfully"⟩ }, w1)

/-! ## refreshAccessToken -/

/-- The body of the `try` block of `refreshAccessToken`. -/
def refreshTry (env : Env) (w : World) (incomingRefreshToken : String) : Outcome :=
  match env.jwtVerify incomingRefreshToken with
  | .error m => (.error (.thrown m), w)
  | .ok decodedId =>
  match findById w.users decodedId with
  | none => (.error (.api 401 "Invalid Refresh Token"), w)
  | some user =>
  if some incomingRefreshToken ≠ user.refreshToken then
    (.error (.api 401 "Refresh token is expired or used"), w)
  else
  match generateAccessAndRefreshTokens env w user._id with
  | (.error e, w1) => (.error e, w1)
  | (.ok tokens, w1) =>
  -- const {accessToken, newRefreshToken} = tokens
  let accessToken := getProp tokens "accessToken"
  let newRefreshToken := getProp tokens "newRefreshToken"
  (.ok { status := 200,
         cookies := [secureCookie "accessToken" accessToken,
                     secureCookie "refreshToken" newRefreshToken],
         json := ⟨200, .refresh accessToken newRefreshToken,
                  "Access token refreshed successfully"⟩ }, w1)

/-- The handler `refreshAccessToken`: whatever the `try` block throws is replaced
by `ApiError(401, error?.message || "Invalid Refresh Token")`. -/
def refreshAccessToken (env : Env) (w : World) (req : Request) : Outcome :=
  let incomingRefreshToken := jsOr req.cookieRefreshToken req.body.refreshToken
  match incomingRefreshToken with
  | none => (.error (.api 401 "Unauthorized request"), w)
  | some token =>
  if token = "" then
    (.error (.api 401 "Unauthorized request"), w)
  else
  match refreshTry env w token with
  | (.ok res, w1) => (.ok res, w1)
  | (.error e, w1) =>
    (.error (.api 401 (if e.message ≠ "" then e.message else "Invalid Refresh Token")), w1)

/-! ## Profile updates -/

/-- The handler `updateAccountDetails`. -/
def updateAccountDetails (env : Env) (w : World) (req : Request) : Outcome :=
  let fullName := req.body.fullName
  let email := req.body.email
  if !truthy fullName || !truthy email then
    (.error (.api 400 "All fields are required"), w)
  else
  match fullName, email with
  | some fullName, some email =>
    let w1 := { w with calls := w.calls ++ [.findByIdAndUpdate req.userId] }
    if env.updateAccepted req.userId fullName email then
      let users1 :=
        match req.userId with
        | none => w1.users
        | some id => updateById w1.users id
            (fun u => { u with fullName := fullName, email := email })
      let w2 := { w1 with users := users1 }
      -- the option `new: true` gives the document after the update
      let user := (findById w2.users req.userId).map (fun u => select ["password"] u.toDoc)
      (.ok { status := 200, cookies := [],
             json := ⟨200, .doc user, "Account details updated successfully"⟩ }, w2)
    else
      (.error (.thrown "findByIdAndUpdate failed"), w1)
  | _, _ => (.error (.api 400 "All fields are required"), w)

/-- The handler `updateUserAvatar`.  After the upload the handler evaluates
`user.findByIdAndUpdate(..)` inside the declaration `const user = ..`: the name
`user` is the binding being declared, still uninitialised, and reading it raises
a ReferenceError.  Nothing after that point is executed. -/
def updateUserAvatar (env : Env) (w : World) (req : Request) : Outcome :=
  let avatarLocalPath := req.file.map File.path
  if !truthy avatarLocalPath then
    (.error (.api 400 "Avatar is required"), w)
  else
  match callUpload env w avatarLocalPath with
  | (.threw m, w1) => (.error (.thrown m), w1)
  | (.null, w1) => (.error (.typeError "Cannot read properties of null (reading url)"), w1)
  | (.response url, w1) =>
  if !truthy url then
    (.error (.api 400 "Avatar upload failed"), w1)
  else
    (.error (.referenceError "Cannot access user before initialization"), w1)

/-- The handler `updateUserCoverImage`.  The argument of the upload call is the
name `avatarLocalPath`, which is declared neither in this handler nor at module
level: evaluating it raises a ReferenceError before `uploadOnCloudinary` is
called.  Nothing after that point is executed. -/
def updateUserCoverImage (_env : Env) (w : World) (req : Request) : Outcome :=
  let coverLocalPath := req.file.map File.path
  if !truthy coverLocalPath then
    (.error (.api 400 "Cover Image is required"), w)
  else
    (.error (.referenceError "avatarLocalPath is not defined"), w)

/-! ## Aggregation

The pipeline of `getUserChannelProfile` is data handed to the database; it is
embedded as data, with an interpreter for the stages and operators it uses. -/

/-- Expressions of the aggregation language.  `field ["a", "b"]` is the path
`"$a.b"`; `unary op x` is the object with the single key `op` and value `x`;
`binary op x y` has the key `op` and the array `[x, y]`; `conditional op c t e`
has the key `op` and the object with keys `if`, `then`, `else`. -/
inductive AggExpr where
  | lit (v : JsVal)
  | field (path : List String)
  | unary (op : String) (arg : AggExpr)
  | binary (op : String) (a b : AggExpr)
  | conditional (op : String) (c t e : AggExpr)
deriving DecidableEq, Repr

/-- Stages of a pipeline: `$match` on one field, `$lookup`, `$addFields`, and
`$project` with inclusions. -/
inductive Stage where
  | matchEq (field : String) (value : JsVal)
  | lookup (collection localField foreignField asField : String)
  | addFields (fields : List (String × AggExpr))
  | project (fields : List String)
deriving DecidableEq, Repr

/-- The expression operators of the aggregation language of the database.  The
name `$condition` is not one of them; the conditional operator is `$cond`. -/
def expressionOperators : List String :=
  ["$abs", "$accumulator", "$acos", "$acosh", "$add", "$addToSet", "$allElementsTrue",
   "$and", "$anyElementTrue", "$arrayElemAt", "$arrayToObject", "$asin", "$asinh",
   "$atan", "$atan2", "$atanh", "$avg", "$binarySize", "$bitAnd", "$bitNot", "$bitOr",
   "$bitXor", "$bsonSize", "$ceil", "$cmp", "$concat", "$concatArrays", "$cond",
   "$convert", "$cos", "$cosh", "$dateAdd", "$dateDiff", "$dateFromParts",
   "$dateFromString", "$dateSubtract", "$dateToParts", "$dateToString", "$dateTrunc",
   "$dayOfMonth", "$dayOfWeek", "$dayOfYear", "$degreesToRadians", "$divide", "$eq",
   "$exp", "$filter", "$first", "$firstN", "$floor", "$function", "$getField", "$gt",
   "$gte", "$hour", "$ifNull", "$in", "$indexOfArray", "$indexOfBytes", "$indexOfCP",
   "$isArray", "$isNumber", "$isoDayOfWeek", "$isoWeek", "$isoWeekYear", "$last",
   "$lastN", "$let", "$literal", "$ln", "$log", "$log10", "$lt", "$lte", "$ltrim",
   "$map", "$max", "$maxN", "$median", "$mergeObjects", "$meta", "$millisecond", "$min",
   "$minN", "$minute", "$mod", "$month", "$multiply", "$ne", "$not", "$objectToArray",
   "$or", "$percentile", "$pow", "$push", "$radiansToDegrees", "$rand", "$range",
   "$reduce", "$regexFind", "$regexFindAll", "$regexMatch", "$replaceAll", "$replaceOne",
   "$reverseArray", "$round", "$rtrim", "$sampleRate", "$second", "$setDifference",
   "$setEquals", "$setField", "$setIntersection", "$setIsSubset", "$setUnion", "$sin",
   "$sinh", "$size", "$slice", "$sortArray", "$split", "$sqrt", "$stdDevPop",
   "$stdDevSamp", "$strLenBytes", "$strLenCP", "$strcasecmp", "$substr", "$substrBytes",
   "$substrCP", "$subtract", "$sum", "$switch", "$tan", "$tanh", "$toBool", "$toDate",
   "$toDecimal", "$toDouble", "$toHashedIndexKey", "$toInt", "$toLong", "$toLower",
   "$toObjectId", "$toString", "$toUpper", "$trim", "$trunc", "$tsIncrement",
   "$tsSecond", "$type", "$unsetField", "$week", "$year", "$zip"]

/-- Whether every operator name of the expression is an operator of the
aggregation language.  The database parses the whole pipeline before it reads
any document and rejects an expression object whose key is not an operator. -/
def AggExpr.recognised : AggExpr → Bool
  | .lit _ => true
  | .field _ => true
  | .unary op arg => decide (op ∈ expressionOperators) && arg.recognised
  | .binary op a b => decide (op ∈ expressionOperators) && a.recognised && b.recognised
  | .conditional op c t e =>
    decide (op ∈ expressionOperators) && c.recognised && t.recognised && e.recognised

/-- Whether the stage parses. -/
def Stage.recognised : Stage → Bool
  | .addFields fields => fields.all (fun f => f.2.recognised)
  | _ => true

/-- Value of a field of an aggregation document. -/
def aggField (d : AggDoc) (name : String) : Option AggVal :=
  (d.find? (fun kv => kv.1 = name)).map Prod.snd

/-- Value of a field path of one or two segments; the second segment maps over an
array of documents. -/
def evalPath (d : AggDoc) : List String → AggVal
  | [f] => (aggField d f).getD (.scalar .undefined)
  | [f, g] =>
    match aggField d f with
    | some (.docs ds) => .array (ds.map (fun x => getProp x g))
    | _ => .scalar .undefined
  | _ => .scalar .undefined

/-- Evaluation of a parsed expression on a document.  The operators evaluated are
the three the pipeline of this controller needs: `$size`, `$in` and `$cond`. -/
def AggExpr.eval (d : AggDoc) : AggExpr → Except Err AggVal
  | .lit v => .ok (.scalar v)
  | .field path => .ok (evalPath d path)
  | .unary op arg =>
    if op ≠ "$size" then .error (.thrown "operator outside the modelled fragment") else
    match arg.eval d with
    | .ok (.array vs) => .ok (.scalar (.num vs.length))
    | .ok (.docs ds) => .ok (.scalar (.num ds.length))
    | .ok (.scalar _) => .error (.thrown "The argument to $size must be an array")
    | .error e => .error e
  | .binary op a b =>
    if op ≠ "$in" then .error (.thrown "operator outside the modelled fragment") else
    match a.eval d, b.eval d with
    | .ok (.scalar v), .ok (.array vs) => .ok (.scalar (.bool (decide (v ∈ vs))))
    | .error e, _ => .error e
    | _, .error e => .error e
    | _, _ => .error (.thrown "$in requires an array as a second argument")
  | .conditional op c t e =>
    if op ≠ "$cond" then .error (.thrown "operator outside the modelled fragment") else
    match c.eval d with
    | .ok (.scalar (.bool true)) => t.eval d
    | .ok _ => e.eval d
    | .error err => .error err

/-- Replacement or addition of a field. -/
def setField (d : AggDoc) (name : String) (v : AggVal) : AggDoc :=
  if d.any (fun kv => kv.1 = name) then
    d.map (fun kv => if kv.1 = name then (name, v) else kv)
  else d ++ [(name, v)]

/-- The stage `$addFields` on one document. -/
def addFieldsTo (d : AggDoc) : List (String × AggExpr) → AggDoc → Except Err AggDoc
  | [], acc => .ok acc
  | (name, e) :: rest, acc =>
    match e.eval d with
    | .ok v => addFieldsTo d rest (setField acc name v)
    | .error err => .error err

/-- A document of the `subscriptions` collection. -/
def Subscription.toDoc (s : Subscription) : Doc :=
  [("subscriber", .num s.subscriber), ("channel", .num s.channel)]

/-- The documents of a collection; a collection that does not exist is empty. -/
def collectionDocs (w : World) (name : String) : List Doc :=
  if name = "subscriptions" then w.subscriptions.map Subscription.toDoc
  else if name = "users" then w.users.map User.toDoc
  else []

/-- Scalar value of a field, `undefined` when absent or not a scalar. -/
def scalarField (d : AggDoc) (name : String) : JsVal :=
  match aggField d name with
  | some (.scalar v) => v
  | _ => .undefined

/-- Sequential application of a fallible step to every document. -/
def mapDocs (f : AggDoc → Except Err AggDoc) : List AggDoc → Except Err (List AggDoc)
  | [] => .ok []
  | d :: rest =>
    match f d, mapDocs f rest with
    | .ok d1, .ok rest1 => .ok (d1 :: rest1)
    | .error e, _ => .error e
    | _, .error e => .error e

/-- One stage applied to the documents flowing through the pipeline. -/
def runStage (w : World) (ds : List AggDoc) : Stage → Except Err (List AggDoc)
  | .matchEq field value => .ok (ds.filter (fun d => scalarField d field = value))
  | .lookup collection localField foreignField asField =>
    .ok (ds.map (fun d => setField d asField
      (.docs ((collectionDocs w collection).filter
        (fun x => getProp x foreignField = scalarField d localField)))))
  | .addFields fields => mapDocs (fun d => addFieldsTo d fields d) ds
  | .project fields =>
    .ok (ds.map (fun d => d.filter (fun kv => kv.1 = "_id" ∨ kv.1 ∈ fields)))

/-- The stages applied in order. -/
def runStages (w : World) : List Stage → List AggDoc → Except Err (List AggDoc)
  | [], ds => .ok ds
  | st :: rest, ds =>
    match runStage w ds st with
    | .ok ds1 => runStages w rest ds1
    | .error e => .error e

/-- The document of a stored user as a pipeline receives it. -/
def userAggDoc (u : User) : AggDoc :=
  u.toDoc.map (fun kv => (kv.1, .scalar kv.2))

/-- The call `User.aggregate(pipeline)`: the pipeline is parsed, then run on the
documents of the `users` collection. -/
def aggregate (w : World) (pipeline : List Stage) : Except Err (List AggDoc) :=
  if pipeline.all Stage.recognised then
    runStages w pipeline (w.users.map userAggDoc)
  else
    .error (.thrown "Unrecognized expression")

/-! ## getUserChannelProfile -/

/-- The pipeline of `getUserChannelProfile` (source lines 357 to 414), for the
lowercased username and `req.user?._id`. -/
def channelPipeline (username userId : JsVal) : List Stage :=
  [ .matchEq "username" username,
    .lookup "subscriptions" "_id" "channel" "subscribers",
    .lookup "subscriptions" "_id" "subscriber" "subscribedTo",
    .addFields
      [ ("subscribersCount", .unary "$size" (.field ["subscribers"])),
        ("channelsSubscribedToCount", .unary "$size" (.field ["subscribedTo"])),
        ("isSubscribed",
          .conditional "$condition"
            (.binary "$in" (.lit userId) (.field ["subscribers", "subscriber"]))
            (.lit (.bool true)) (.lit (.bool false))) ],
    .project ["fullName", "username", "subscribersCount", "channelsSubscribedToCount",
      "isSubscribed", "avatar", "coverImage", "email"] ]

/-- The value of `req.user?._id` as a scalar. -/
def JsVal.ofId : Option Nat → JsVal
  | none => .undefined
  | some i => .num i

/-- The handler `getUserChannelProfile`. -/
def getUserChannelProfile (env : Env) (w : World) (req : Request) : Outcome :=
  let username := req.paramsUsername
  if !truthy (username.map jsTrim) then
    (.error (.api 400 "Username is required"), w)
  else
  match aggregate w
      (channelPipeline (JsVal.ofOption (username.map env.toLowerCase))
        (JsVal.ofId req.userId)) with
  | .error e => (.error e, w)
  | .ok channel =>
  match channel with
  | [] => (.error (.api 404 "Channel does not exist"), w)
  | first :: _ =>
    (.ok { status := 200, cookies := [],
           json := ⟨200, .aggregated first, "Channel profile fetched successfully"⟩ }, w)

/-! ## Concrete collaborators and stores -/

deriving instance DecidableEq for Except

/-- Lowercasing of ASCII letters; `toLowerCase` agrees with it on ASCII strings. -/
def asciiLower (s : String) : String :=
  ⟨s.data.map Char.toLower⟩

/-- Collaborators that all succeed: the upload returns a URL, the store accepts
every write, a password is correct when it equals the stored one, the token of a
user is derived from the username, and only the token `stored-refresh-alice`
verifies (as a token of user 1). -/
def sampleEnv : Env :=
  { toLowerCase := asciiLower
    uploadOnCloudinary := fun p =>
      match p with
      | some x => .response (some ("https://cdn" ++ x))
      | none => .null
    create := fun users a =>
      some ⟨users.length + 1, a.username, a.email.getD "", a.fullName.getD "",
        a.password.getD "", a.avatar.getD "", a.coverImage, none⟩
    isPasswordCorrect := fun u p => some (decide (p = some u.password))
    generateAccessToken := fun u => some ("access-" ++ u.username)
    generateRefreshToken := fun u => some ("refresh-" ++ u.username)
    save := fun _ => true
    jwtVerify := fun t =>
      if t = "stored-refresh-alice" then .ok (some 1) else .error "jwt malformed"
    updateAccepted := fun _ _ _ => true }

/-- The collaborators of `sampleEnv` with another behaviour of `User.create`. -/
def envWithCreate (create : List User → CreateArgs → Option User) : Env :=
  { sampleEnv with create := create }

/-- The collaborators of `sampleEnv`, except that signing an access token throws. -/
def envSigningFails : Env :=
  { sampleEnv with generateAccessToken := fun _ => none }

/-- A stored user who is not logged in. -/
def alice : User :=
  ⟨1, "alice", "alice@example.com", "Alice", "hash", "https://cdn/a.png", "", none⟩

/-- The same user after a login: a refresh token is stored. -/
def aliceLoggedIn : User :=
  { alice with refreshToken := some "stored-refresh-alice" }

/-- A store without users. -/
def emptyWorld : World := ⟨[], [], []⟩

/-- A store with one user, two subscribers of her channel and one channel she
subscribed to. -/
def aliceWorld : World := ⟨[alice], [⟨2, 1⟩, ⟨3, 1⟩, ⟨1, 2⟩], []⟩

/-- The same store while the user is logged in. -/
def aliceLoggedInWorld : World := ⟨[aliceLoggedIn], [⟨2, 1⟩, ⟨3, 1⟩, ⟨1, 2⟩], []⟩

/-- An uploaded avatar and no cover image. -/
def avatarOnly : Files := ⟨some [⟨"/tmp/a.png"⟩], none⟩

/-- A registration whose `fullName` field was not sent. -/
def registerWithoutFullName : Request :=
  { body := { email := some "bob@example.com", username := some "bob",
              password := some "secret" },
    files := some avatarOnly }

/-- A registration with the username `Alice` and an unused email. -/
def registerMixedCase : Request :=
  { body := { fullName := some "Alice Two", email := some "alice2@example.com",
              username := some "Alice", password := some "secret" },
    files := some avatarOnly }

/-- A registration whose multipart body carries a cover image and no avatar. -/
def registerWithoutAvatar : Request :=
  { body := { fullName := some "Bob", email := some "bob@example.com",
              username := some "bob", password := some "secret" },
    files := some ⟨none, some [⟨"/tmp/c.png"⟩]⟩ }

/-- The argument `registerUser` builds for `User.create` from `registerWithoutFullName`. -/
def createArgsWithoutFullName : CreateArgs :=
  { fullName := none, avatar := some "https://cdn/tmp/a.png", coverImage := "",
    email := some "bob@example.com", password := some "secret", username := "bob" }

/-- An authenticated request that uploads one file. -/
def uploadOneFile : Request :=
  { file := some ⟨"/tmp/new.png"⟩, userId := some 1 }

/-- A refresh request whose cookie carries the token stored on user 1. -/
def refreshWithStoredToken : Request :=
  { cookieRefreshToken := some "stored-refresh-alice" }

/-- An authenticated update of the account details of user 1. -/
def updateDetails : Request :=
  { body := { fullName := some "Alice B", email := some "alice.b@example.com" },
    userId := some 1 }

/-- A login of the stored user by username. -/
def loginAlice : Request :=
  { body := { username := some "alice", password := some "hash" } }

/-- A profile request for the stored channel, made by user 2. -/
def profileOfAlice : Request :=
  { paramsUsername := some "alice", userId := some 2 }

/-- The pipeline of `getUserChannelProfile` with the conditional operator spelled
`$cond`, the name the aggregation language knows.  It is not what the source
sends; it serves to check the interpreter on a pipeline that parses. -/
def channelPipelineCond (username userId : JsVal) : List Stage :=
  [ .matchEq "username" username,
    .lookup "subscriptions" "_id" "channel" "subscribers",
    .lookup "subscriptions" "_id" "subscriber" "subscribedTo",
    .addFields
      [ ("subscribersCount", .unary "$size" (.field ["subscribers"])),
        ("channelsSubscribedToCount", .unary "$size" (.field ["subscribedTo"])),
        ("isSubscribed",
          .conditional "$cond"
            (.binary "$in" (.lit userId) (.field ["subscribers", "subscriber"]))
            (.lit (.bool true)) (.lit (.bool false))) ],
    .project ["fullName", "username", "subscribersCount", "channelsSubscribedToCount",
      "isSubscribed", "avatar", "coverImage", "email"] ]

/-- The subscription documents whose field `key` is the `_id` of the user. -/
def edgesOf (w : World) (key : String) (u : User) : List Doc :=
  (w.subscriptions.map Subscription.toDoc).filter (fun x => getProp x key = JsVal.num u._id)

/-- The profile that the pipeline with `$cond` computes for one user. -/
def channelProfile (w : World) (userId : JsVal) (u : User) : AggDoc :=
  [("_id", .scalar (.num u._id)), ("username", .scalar (.str u.username)),
   ("email", .scalar (.str u.email)), ("fullName", .scalar (.str u.fullName)),
   ("avatar", .scalar (.str u.avatar)), ("coverImage", .scalar (.str u.coverImage)),
   ("subscribersCount", .scalar (.num (edgesOf w "channel" u).length)),
   ("channelsSubscribedToCount", .scalar (.num (edgesOf w "subscriber" u).length)),
   ("isSubscribed", .scalar (.bool (decide
      (userId ∈ (edgesOf w "channel" u).map (fun x => getProp x "subscriber")))))]

/-- The response to `loginAlice` with the collaborators of `sampleEnv`. -/
def loginAliceResponse : Response :=
  { status := 200,
    cookies := [⟨"accessToken", .str "access-alice", true, true⟩,
                ⟨"refreshToken", .str "refresh-alice", true, true⟩],
    json := ⟨200,
      .login (some [("_id", .num 1), ("username", .str "alice"),
          ("email", .str "alice@example.com"), ("fullName", .str "Alice"),
          ("avatar", .str "https://cdn/a.png"), ("coverImage", .str "")])
        (.str "access-alice") (.str "refresh-alice"),
      "User logged in successfully"⟩ }

/-- The store after `loginAlice`: the issued refresh token is stored on the user. -/
def aliceWorldAfterLogin : World :=
  ⟨[{ alice with refreshToken := some "refresh-alice" }], [⟨2, 1⟩, ⟨3, 1⟩, ⟨1, 2⟩],
    [.signAccess 1, .signRefresh 1, .save 1]⟩

/-- A store whose user 1 holds a refresh token other than the one `sampleEnv`
verifies. -/
def aliceRotatedWorld : World :=
  ⟨[{ alice with refreshToken := some "rotated-refresh-alice" }], [], []⟩

/-! ## Theorems -/

/-! ### registerUser -/

/-- A field that is present and blank after trimming is rejected with `ApiError(400)`
before anything else happens. -/
theorem registerUser_blank_field (env : Env) (w : World) (req : Request)
    (h : req.body.fullName.map jsTrim = some "" ∨ req.body.email.map jsTrim = some "" ∨
      req.body.username.map jsTrim = some "" ∨ req.body.password.map jsTrim = some "") :
    registerUser env w req = (.error (.api 400 "All fields are required"), w) := by
  unfold registerUser
  simp only [List.any_cons, List.any_nil, Bool.or_false]
  rw [if_pos]
  simpa [or_assoc] using h

/-- C1 (the code departs from the claim): a registration whose `fullName` was not
sent passes the blank-field test; whatever `User.create` does, the handler calls
it with an undefined `fullName` and its outcome is not an `ApiError(400)`. -/
theorem registerUser_missing_field_reaches_create
    (create : List User → CreateArgs → Option User) :
    (∀ m, (registerUser (envWithCreate create) emptyWorld registerWithoutFullName).1
        ≠ .error (.api 400 m)) ∧
    createArgsWithoutFullName.fullName = none ∧
    Call.create createArgsWithoutFullName
      ∈ (registerUser (envWithCreate create) emptyWorld registerWithoutFullName).2.calls := by
  have hargs : createArgsWithoutFullName =
      ⟨none, some "https://cdn/tmp/a.png", "", some "bob@example.com", some "secret",
        "bob"⟩ := rfl
  cases h : create [] createArgsWithoutFullName <;>
    rw [hargs] at h <;>
    simp [registerUser, envWithCreate, sampleEnv, emptyWorld, registerWithoutFullName,
      avatarOnly, avatarLocalPathOf, coverImageLocalPathOf, callUpload, findOne, findById,
      truthy, jsTrim, isJsWhiteSpace, asciiLower, createArgsWithoutFullName, h]

/-- C5: when all four text fields are present and not blank, and the username or
the email of the request, lowercased as the store keeps them, is the one of a
stored user, the handler throws `ApiError(409)`; the world after the call is the
world before it, so nothing was uploaded and `User.create` was not called. -/
theorem registerUser_taken_username_or_email_conflict (env : Env) (w : World)
    (req : Request) (fullName email username password : String) (u : User)
    (hfullName : req.body.fullName = some fullName) (hfullName1 : jsTrim fullName ≠ "")
    (hemail : req.body.email = some email) (hemail1 : jsTrim email ≠ "")
    (husername : req.body.username = some username) (husername1 : jsTrim username ≠ "")
    (hpassword : req.body.password = some password) (hpassword1 : jsTrim password ≠ "")
    (hstored : u ∈ w.users)
    (htaken : u.username = env.toLowerCase username ∨ u.email = env.toLowerCase email) :
    registerUser env w req =
      (.error (.api 409 "User with email and username already exists"), w) := by
  have hfound : (findOne env w.users (some username) (some email)).isSome = true := by
    unfold findOne
    rw [List.find?_isSome]
    refine ⟨u, hstored, ?_⟩
    rcases htaken with h | h
    · simp [h]
    · simp [h]
  unfold registerUser
  simp [hfullName, hemail, husername, hpassword, hfullName1, hemail1, husername1,
    hpassword1, hfound]

/-- Witness of C5: the username `alice` is stored and a registration asks for
`Alice` with an unused email. -/
theorem registerUser_taken_username_or_email_conflict_witness :
    registerUser sampleEnv aliceWorld registerMixedCase =
      (.error (.api 409 "User with email and username already exists"), aliceWorld) :=
  registerUser_taken_username_or_email_conflict sampleEnv aliceWorld registerMixedCase
    "Alice Two" "alice2@example.com" "Alice" "secret" alice rfl (by decide) rfl (by decide)
    rfl (by decide) rfl (by decide) (by decide) (Or.inl (by decide))

/-- A registration without any uploaded-files object is rejected with
`ApiError(400, "Avatar is required")` and nothing is written. -/
theorem registerUser_no_files (env : Env) (w : World) (req : Request)
    (hblank : ¬ (req.body.fullName.map jsTrim = some "" ∨ req.body.email.map jsTrim = some "" ∨
      req.body.username.map jsTrim = some "" ∨ req.body.password.map jsTrim = some ""))
    (hfree : findOne env w.users req.body.username req.body.email = none)
    (hfiles : req.files = none) :
    registerUser env w req = (.error (.api 400 "Avatar is required"), w) := by
  unfold registerUser
  simp only [List.any_cons, List.any_nil, Bool.or_false]
  rw [if_neg (by simpa [or_assoc] using hblank)]
  simp [hfree, hfiles, avatarLocalPathOf, truthy]

/-- C8 (the code departs from the claim): the request has an uploaded-files object
with a cover image and no avatar entry.  The handler indexes the missing entry
and throws a TypeError, not `ApiError(400, "Avatar is required")`; nothing is
written. -/
theorem registerUser_files_without_avatar_type_error :
    registerUser sampleEnv emptyWorld registerWithoutAvatar =
      (.error (.typeError "Cannot read properties of undefined (reading 0)"), emptyWorld) := by
  decide

/-! ### Token generation, loginUser, refreshAccessToken -/

/-- Reading the first document with a given `_id` after updating it. -/
theorem findById_updateById (users : List User) (id : Nat) (f : User → User)
    (hf : ∀ u, (f u)._id = u._id) :
    findById (updateById users id f) (some id) = (findById users (some id)).map f := by
  induction users with
  | nil => simp [findById, updateById]
  | cons u rest ih =>
    by_cases h : u._id = id
    · simp [findById, updateById, h, hf]
    · simp only [findById] at ih
      simp [findById, updateById, h, ih]

/-- A document found by `_id` has that `_id`. -/
theorem findById_id (users : List User) (id : Nat) (u : User)
    (h : findById users (some id) = some u) : u._id = id := by
  simp only [findById] at h
  simpa using List.find?_some h

/-- What a successful token generation did: it loaded the user, signed both
tokens, saved the refresh token on the user and returned the two tokens. -/
theorem generateAccessAndRefreshTokens_ok (env : Env) (w : World) (userId : Nat)
    (tokens : Doc) (w1 : World)
    (h : generateAccessAndRefreshTokens env w userId = (.ok tokens, w1)) :
    ∃ user a r, findById w.users (some userId) = some user ∧
      env.generateAccessToken user = some a ∧ env.generateRefreshToken user = some r ∧
      env.save { user with refreshToken := some r } = true ∧
      tokens = [("accessToken", .str a), ("refreshToken", .str r)] ∧
      w1.users = updateById w.users userId (fun u => { u with refreshToken := some r }) ∧
      w1.subscriptions = w.subscriptions ∧
      w1.calls = w.calls ++ [.signAccess userId, .signRefresh userId, .save userId] := by
  unfold generateAccessAndRefreshTokens generateTokensTry at h
  cases hu : findById w.users (some userId) with
  | none => simp [hu] at h
  | some user =>
    have hid := findById_id w.users userId user hu
    cases ha : env.generateAccessToken user with
    | none => simp [hu, ha] at h
    | some a =>
      cases hr : env.generateRefreshToken user with
      | none => simp [hu, ha, hr] at h
      | some r =>
        cases hs : env.save { user with refreshToken := some r } with
        | false => simp [hu, ha, hr, hs] at h
        | true =>
          simp [hu, ha, hr, hs] at h
          obtain ⟨ht, hw⟩ := h
          subst hw
          exact ⟨user, a, r, rfl, ha, hr, hs, ht.symm, by simp [hid], rfl, by simp [hid]⟩

/-- A failed token generation throws `ApiError(500)` with the same message
whatever the cause, and leaves the stored users as they were. -/
theorem generateAccessAndRefreshTokens_error (env : Env) (w : World) (userId : Nat)
    (e : Err) (w1 : World)
    (h : generateAccessAndRefreshTokens env w userId = (.error e, w1)) :
    e = .api 500 "Something went wrong while generating tokens" ∧ w1.users = w.users := by
  unfold generateAccessAndRefreshTokens generateTokensTry at h
  cases hu : findById w.users (some userId) with
  | none =>
    simp [hu] at h
    exact ⟨h.1.symm, by rw [← h.2]⟩
  | some user =>
    cases ha : env.generateAccessToken user with
    | none =>
      simp [hu, ha] at h
      exact ⟨h.1.symm, by rw [← h.2]⟩
    | some a =>
      cases hr : env.generateRefreshToken user with
      | none =>
        simp [hu, ha, hr] at h
        exact ⟨h.1.symm, by rw [← h.2]⟩
      | some r =>
        cases hs : env.save { user with refreshToken := some r } with
        | false =>
          simp [hu, ha, hr, hs] at h
          exact ⟨h.1.symm, by rw [← h.2]⟩
        | true => simp [hu, ha, hr, hs] at h

/-- The first document with a given `_id`, and the list after its update. -/
theorem updateById_split (users : List User) (id : Nat) (f : User → User) (u : User)
    (h : findById users (some id) = some u) :
    ∃ pre post, users = pre ++ u :: post ∧ (∀ x ∈ pre, x._id ≠ id) ∧ u._id = id ∧
      updateById users id f = pre ++ f u :: post := by
  induction users with
  | nil => simp [findById] at h
  | cons x rest ih =>
    by_cases hx : x._id = id
    · have hxu : x = u := by simpa [findById, List.find?, hx] using h
      subst hxu
      exact ⟨[], rest, rfl, by simp, hx, by simp [updateById, hx]⟩
    · have hrest : findById rest (some id) = some u := by
        simpa [findById, List.find?, hx] using h
      obtain ⟨pre, post, hsplit, hpre, hid, hupd⟩ := ih hrest
      refine ⟨x :: pre, post, by simp [hsplit], ?_, hid, by simp [updateById, hx, hupd]⟩
      intro y hy
      rcases List.mem_cons.mp hy with hy | hy
      · rw [hy]
        exact hx
      · exact hpre y hy

/-- C2: whenever `loginUser` succeeds, an identifier was given, the user it
looked up is stored and the password check passed; the response has status 200
and sets exactly two cookies, named `accessToken` and `refreshToken`, both
`httpOnly` and `secure`, whose values are the tokens signed for the stored user;
the store after the call is the store before it with that refresh token written
on the user, so the stored refresh token equals the value of the `refreshToken`
cookie; and the response body carries the same two tokens. -/
theorem loginUser_success_cookie_equals_stored_token (env : Env) (w : World)
    (req : Request) (res : Response) (w1 : World)
    (h : loginUser env w req = (.ok res, w1)) :
    ∃ user stored accessToken refreshToken pre post,
      ((∃ s, req.body.username = some s ∧ s ≠ "") ∨
        (∃ s, req.body.email = some s ∧ s ≠ "")) ∧
      user ∈ w.users ∧
      (req.body.username.map env.toLowerCase = some user.username ∨
        req.body.email.map env.toLowerCase = some user.email) ∧
      env.isPasswordCorrect user req.body.password = some true ∧
      w.users = pre ++ stored :: post ∧ (∀ x ∈ pre, x._id ≠ user._id) ∧
      stored._id = user._id ∧
      env.generateAccessToken stored = some accessToken ∧
      env.generateRefreshToken stored = some refreshToken ∧
      res.status = 200 ∧
      res.cookies = [⟨"accessToken", .str accessToken, true, true⟩,
        ⟨"refreshToken", .str refreshToken, true, true⟩] ∧
      w1.users = pre ++ { stored with refreshToken := some refreshToken } :: post ∧
      res.json.statusCode = 200 ∧
      ∃ body, res.json.data = .login body (.str accessToken) (.str refreshToken) := by
  unfold loginUser at h
  by_cases hid : (!truthy req.body.username && !truthy req.body.email) = true
  · simp [hid] at h
  · cases hu : findOne env w.users req.body.username req.body.email with
    | none => simp [hid, hu] at h
    | some user =>
      cases hp : env.isPasswordCorrect user req.body.password with
      | none => simp [hid, hu, hp] at h
      | some b =>
        cases b with
        | false => simp [hid, hu, hp] at h
        | true =>
          rcases hg : generateAccessAndRefreshTokens env w user._id with ⟨r, w2⟩
          cases r with
          | error e => simp [hid, hu, hp, hg] at h
          | ok tokens =>
            obtain ⟨u0, a, r, hu0, ha, hr, _, ht, hw, _, _⟩ :=
              generateAccessAndRefreshTokens_ok env w user._id tokens w2 hg
            obtain ⟨pre, post, hsplit, hpre, hid0, hupd⟩ :=
              updateById_split w.users user._id
                (fun u => { u with refreshToken := some r }) u0 hu0
            simp only [hid, hu, hp, hg] at h
            simp only [Bool.false_eq_true, if_false, Prod.mk.injEq, Except.ok.injEq] at h
            obtain ⟨hres, hw2⟩ := h
            subst hw2
            subst hres
            subst ht
            have hmem := List.mem_of_find?_eq_some hu
            have hmatch := List.find?_some hu
            refine ⟨user, u0, a, r, pre, post, ?_, hmem, ?_, hp, hsplit, hpre, hid0, ha, hr,
              rfl, rfl, ?_, rfl, ⟨_, rfl⟩⟩
            · cases hA : req.body.username with
              | none =>
                cases hB : req.body.email with
                | none => simp [hA, hB, truthy] at hid
                | some e =>
                  right
                  exact ⟨e, rfl, by simpa [hA, hB, truthy] using hid⟩
              | some n =>
                by_cases hn : n = ""
                · cases hB : req.body.email with
                  | none => simp [hA, hB, hn, truthy] at hid
                  | some e =>
                    right
                    exact ⟨e, rfl, by simpa [hA, hB, hn, truthy] using hid⟩
                · left
                  exact ⟨n, rfl, hn⟩
            · simpa using hmatch
            · rw [hw, hupd]

/-- Witness of C2: the stored user logs in with the right password. -/
theorem loginUser_success_cookie_equals_stored_token_witness :
    loginUser sampleEnv aliceWorld loginAlice = (.ok loginAliceResponse, aliceWorldAfterLogin) ∧
    ∃ user stored accessToken refreshToken pre post,
      ((∃ s, loginAlice.body.username = some s ∧ s ≠ "") ∨
        (∃ s, loginAlice.body.email = some s ∧ s ≠ "")) ∧
      user ∈ aliceWorld.users ∧
      (loginAlice.body.username.map sampleEnv.toLowerCase = some user.username ∨
        loginAlice.body.email.map sampleEnv.toLowerCase = some user.email) ∧
      sampleEnv.isPasswordCorrect user loginAlice.body.password = some true ∧
      aliceWorld.users = pre ++ stored :: post ∧ (∀ x ∈ pre, x._id ≠ user._id) ∧
      stored._id = user._id ∧
      sampleEnv.generateAccessToken stored = some accessToken ∧
      sampleEnv.generateRefreshToken stored = some refreshToken ∧
      loginAliceResponse.status = 200 ∧
      loginAliceResponse.cookies = [⟨"accessToken", .str accessToken, true, true⟩,
        ⟨"refreshToken", .str refreshToken, true, true⟩] ∧
      aliceWorldAfterLogin.users
        = pre ++ { stored with refreshToken := some refreshToken } :: post ∧
      loginAliceResponse.json.statusCode = 200 ∧
      ∃ body, loginAliceResponse.json.data
        = .login body (.str accessToken) (.str refreshToken) :=
  ⟨by decide,
   loginUser_success_cookie_equals_stored_token sampleEnv aliceWorld loginAlice
     loginAliceResponse aliceWorldAfterLogin (by decide)⟩

/-- The login succeeds as soon as an identifier is given, the user exists, the
password matches and the token generation succeeds. -/
theorem loginUser_succeeds (env : Env) (w : World) (req : Request) (user : User)
    (tokens : Doc) (w1 : World)
    (hid : truthy req.body.username = true ∨ truthy req.body.email = true)
    (hu : findOne env w.users req.body.username req.body.email = some user)
    (hp : env.isPasswordCorrect user req.body.password = some true)
    (hg : generateAccessAndRefreshTokens env w user._id = (.ok tokens, w1)) :
    ∃ res, loginUser env w req = (.ok res, w1) := by
  unfold loginUser
  have hid2 : (!truthy req.body.username && !truthy req.body.email) = false := by
    rcases hid with h | h <;> simp [h]
  simp [hid2, hu, hp, hg]

/-- When the token generation fails inside `loginUser`, the handler throws the
generic `ApiError(500)`. -/
theorem loginUser_generation_failure (env : Env) (w : World) (req : Request) (user : User)
    (e : Err) (w1 : World)
    (hid : truthy req.body.username = true ∨ truthy req.body.email = true)
    (hu : findOne env w.users req.body.username req.body.email = some user)
    (hp : env.isPasswordCorrect user req.body.password = some true)
    (hg : generateAccessAndRefreshTokens env w user._id = (.error e, w1)) :
    loginUser env w req =
      (.error (.api 500 "Something went wrong while generating tokens"), w1) := by
  have he := (generateAccessAndRefreshTokens_error env w user._id e w1 hg).1
  unfold loginUser
  have hid2 : (!truthy req.body.username && !truthy req.body.email) = false := by
    rcases hid with h | h <;> simp [h]
  simp [hid2, hu, hp, hg, he]

/-- C6: a refresh request is rejected with `ApiError(401)` when the incoming token
is missing or empty, when it does not verify, when the decoded `_id` names no
stored user, or when the token differs from the one stored on that user; the
world after the call is the world before it, so no token was signed and the
stored refresh token is unchanged. -/
theorem refreshAccessToken_rejects_bad_token (env : Env) (w : World) (req : Request)
    (h : truthy (jsOr req.cookieRefreshToken req.body.refreshToken) = false ∨
      ∃ token, jsOr req.cookieRefreshToken req.body.refreshToken = some token ∧
        ((∃ m, env.jwtVerify token = .error m) ∨
         (∃ id, env.jwtVerify token = .ok id ∧ findById w.users id = none) ∨
         (∃ id user, env.jwtVerify token = .ok id ∧ findById w.users id = some user ∧
            user.refreshToken ≠ some token))) :
    ∃ m, refreshAccessToken env w req = (.error (.api 401 m), w) := by
  unfold refreshAccessToken
  cases ht : jsOr req.cookieRefreshToken req.body.refreshToken with
  | none => exact ⟨_, rfl⟩
  | some token =>
    by_cases hempty : token = ""
    · exact ⟨"Unauthorized request", by simp [hempty]⟩
    · rcases h with h | ⟨t, htok, h⟩
      · simp [ht, truthy, hempty] at h
      · rw [ht] at htok
        cases htok
        rcases h with ⟨m, hv⟩ | ⟨id, hv, hnone⟩ | ⟨id, user, hv, hsome, hne⟩
        · exact ⟨if m = "" then "Invalid Refresh Token" else m,
            by simp [hempty, refreshTry, hv, Err.message]⟩
        · exact ⟨"Invalid Refresh Token", by simp [hempty, refreshTry, hv, hnone, Err.message]⟩
        · have hne2 : ¬ some token = user.refreshToken := fun hc => hne hc.symm
          exact ⟨"Refresh token is expired or used",
            by simp [hempty, refreshTry, hv, hsome, hne2, Err.message]⟩

/-- Witness of C6: the cookie carries the token that verifies, while the user
holds a newer one. -/
theorem refreshAccessToken_rejects_bad_token_witness :
    ∃ m, refreshAccessToken sampleEnv aliceRotatedWorld refreshWithStoredToken
      = (.error (.api 401 m), aliceRotatedWorld) :=
  refreshAccessToken_rejects_bad_token sampleEnv aliceRotatedWorld refreshWithStoredToken
    (Or.inr ⟨"stored-refresh-alice", by decide,
      Or.inr (Or.inr ⟨some 1, { alice with refreshToken := some "rotated-refresh-alice" },
        by decide, by decide, by decide⟩)⟩)

/-- Every success of `refreshAccessToken` sets the cookie `refreshToken` to
`undefined` and returns `undefined` as `newRefreshToken`, while a refresh token
was signed and stored on the user. -/
theorem refreshAccessToken_ok_refresh_cookie_undefined (env : Env) (w : World)
    (req : Request) (res : Response) (w1 : World)
    (h : refreshAccessToken env w req = (.ok res, w1)) :
    ∃ a r userId,
      res.cookies = [⟨"accessToken", .str a, true, true⟩,
        ⟨"refreshToken", .undefined, true, true⟩] ∧
      res.json.data = .refresh (.str a) .undefined ∧
      (findById w1.users (some userId)).map User.refreshToken = some (some r) := by
  unfold refreshAccessToken at h
  cases ht : jsOr req.cookieRefreshToken req.body.refreshToken with
  | none => simp [ht] at h
  | some token =>
    by_cases hempty : token = ""
    · simp [ht, hempty] at h
    · simp only [ht, hempty, if_false] at h
      unfold refreshTry at h
      cases hv : env.jwtVerify token with
      | error m => simp [hv] at h
      | ok id =>
        cases hu : findById w.users id with
        | none => simp [hv, hu] at h
        | some user =>
          by_cases hne : some token = user.refreshToken
          · rcases hg : generateAccessAndRefreshTokens env w user._id with ⟨r, w2⟩
            cases r with
            | error e => simp [hv, hu, hne, hg] at h
            | ok tokens =>
              obtain ⟨u0, a, r, hu0, _, _, _, htk, hw, _, _⟩ :=
                generateAccessAndRefreshTokens_ok env w user._id tokens w2 hg
              simp only [hv, hu, hne, hg] at h
              simp only [ne_eq, not_true_eq_false, if_false, Prod.mk.injEq,
                Except.ok.injEq] at h
              obtain ⟨hres, hw2⟩ := h
              subst hw2
              subst hres
              subst htk
              refine ⟨a, r, user._id, rfl, rfl, ?_⟩
              have hread := findById_updateById w.users user._id
                (fun u => { u with refreshToken := some r }) (fun _ => rfl)
              rw [hw, hread, hu0]
              rfl
          · simp [hv, hu, hne] at h

/-- C3 (the code departs from the claim): the incoming token verifies and equals
the stored one.  A new refresh token `refresh-alice` is signed and stored on the
user, but the handler reads the property `newRefreshToken` of an object whose
properties are `accessToken` and `refreshToken`: the cookie `refreshToken` and
the body field `newRefreshToken` are `undefined`. -/
theorem refreshAccessToken_new_refresh_token_not_returned :
    ∃ res w1,
      refreshAccessToken sampleEnv aliceLoggedInWorld refreshWithStoredToken = (.ok res, w1) ∧
      res.cookies = [⟨"accessToken", .str "access-alice", true, true⟩,
        ⟨"refreshToken", .undefined, true, true⟩] ∧
      res.json.data = .refresh (.str "access-alice") .undefined ∧
      w1.users = [{ alice with refreshToken := some "refresh-alice" }] ∧
      (findById w1.users (some 1)).map User.refreshToken = some (some "refresh-alice") :=
  ⟨_, _, rfl, by decide, by decide, by decide, by decide⟩

/-- Every error of `refreshAccessToken` is an `ApiError(401)`. -/
theorem refreshAccessToken_error_is_401 (env : Env) (w : World) (req : Request)
    (e : Err) (w1 : World) (h : refreshAccessToken env w req = (.error e, w1)) :
    ∃ m, e = .api 401 m := by
  unfold refreshAccessToken at h
  cases ht : jsOr req.cookieRefreshToken req.body.refreshToken with
  | none =>
    simp [ht] at h
    exact ⟨_, h.1.symm⟩
  | some token =>
    by_cases hempty : token = ""
    · simp [ht, hempty] at h
      exact ⟨_, h.1.symm⟩
    · simp only [ht, hempty, if_false] at h
      rcases hr : refreshTry env w token with ⟨r, w2⟩
      cases r with
      | ok res => simp [hr] at h
      | error e2 =>
        simp only [hr, Prod.mk.injEq, Except.error.injEq] at h
        exact ⟨_, h.1.symm⟩

/-- C7 (the code departs from the claim): signing the access token fails while a
valid, matching refresh token is presented.  The helper throws the generic
`ApiError(500)`; the `catch` of `refreshAccessToken` replaces it by an
`ApiError(401)` that carries the message of the helper. -/
theorem refreshAccessToken_generation_failure_is_401 :
    (generateAccessAndRefreshTokens envSigningFails aliceLoggedInWorld 1).1
      = .error (.api 500 "Something went wrong while generating tokens") ∧
    (refreshAccessToken envSigningFails aliceLoggedInWorld refreshWithStoredToken).1
      = .error (.api 401 "Something went wrong while generating tokens") := by
  decide

/-! ### Responses that carry a user object -/

/-- A projection has none of the excluded fields. -/
theorem select_excluded (excluded : List String) (d : Doc) (key : String)
    (h : key ∈ excluded) : hasProp (select excluded d) key = false := by
  unfold hasProp select
  rw [Bool.eq_false_iff]
  intro hany
  rw [List.any_eq_true] at hany
  obtain ⟨kv, hmem, hkey⟩ := hany
  rw [List.mem_filter] at hmem
  have hk : kv.1 = key := by simpa using hkey
  rw [hk] at hmem
  simp [h] at hmem

/-- The user object of a successful login has neither `password` nor `refreshToken`. -/
theorem loginUser_user_sanitized (env : Env) (w : World) (req : Request)
    (res : Response) (w1 : World) (h : loginUser env w req = (.ok res, w1)) :
    ∃ user a r, res.json.data = .login user a r ∧
      ∀ d, user = some d → hasProp d "password" = false ∧ hasProp d "refreshToken" = false := by
  unfold loginUser at h
  dsimp only at h
  split at h
  · simp at h
  · split at h
    · simp at h
    · split at h
      · simp at h
      · simp at h
      · split at h
        · simp at h
        · simp only [Prod.mk.injEq, Except.ok.injEq] at h
          obtain ⟨hres, _⟩ := h
          subst hres
          refine ⟨_, _, _, rfl, ?_⟩
          intro d hd
          simp only [Option.map_eq_some'] at hd
          obtain ⟨u, _, hd⟩ := hd
          subst hd
          exact ⟨select_excluded _ _ _ (by simp), select_excluded _ _ _ (by simp)⟩

/-- A projected document read from the store has none of the excluded fields. -/
theorem select_of_found (excluded : List String) (o : Option User) (d : Doc) (key : String)
    (hkey : key ∈ excluded)
    (h : o.map (fun u => select excluded u.toDoc) = some d) : hasProp d key = false := by
  simp only [Option.map_eq_some'] at h
  obtain ⟨u, _, hd⟩ := h
  subst hd
  exact select_excluded _ _ _ hkey

/-- The user object of a successful registration has neither `password` nor
`refreshToken`. -/
theorem registerUser_user_sanitized (env : Env) (w : World) (req : Request)
    (res : Response) (w1 : World) (h : registerUser env w req = (.ok res, w1)) :
    ∃ d, res.json.data = .doc (some d) ∧
      hasProp d "password" = false ∧ hasProp d "refreshToken" = false := by
  unfold registerUser at h
  dsimp only at h
  repeat' split at h
  all_goals try (simp at h; done)
  all_goals
    simp only [Prod.mk.injEq, Except.ok.injEq] at h
    obtain ⟨hres, _⟩ := h
    subst hres
    exact ⟨_, rfl,
      select_of_found ["password", "refreshToken"] _ _ "password" (by simp) (by assumption),
      select_of_found ["password", "refreshToken"] _ _ "refreshToken" (by simp)
        (by assumption)⟩

/-- C4 (the code departs from the claim): a logged-in user updates the account
details.  The projection of `updateAccountDetails` excludes `password` only, so
the user object of the response carries the stored refresh token. -/
theorem updateAccountDetails_returns_refresh_token :
    ∃ d w1,
      updateAccountDetails sampleEnv aliceLoggedInWorld updateDetails =
        (.ok ⟨200, [], ⟨200, .doc (some d), "Account details updated successfully"⟩⟩, w1) ∧
      hasProp d "password" = false ∧
      getProp d "refreshToken" = .str "stored-refresh-alice" :=
  ⟨_, _, rfl, by decide, by decide⟩

/-! ### updateUserAvatar and updateUserCoverImage -/

/-- No request to `updateUserAvatar` gets a response. -/
theorem updateUserAvatar_never_succeeds (env : Env) (w : World) (req : Request)
    (res : Response) (w1 : World) : updateUserAvatar env w req ≠ (.ok res, w1) := by
  unfold updateUserAvatar callUpload
  intro h
  dsimp only at h
  split at h
  · simp at h
  · split at h
    · simp at h
    · simp at h
    · split at h <;> simp at h

/-- No request to `updateUserCoverImage` gets a response. -/
theorem updateUserCoverImage_never_succeeds (env : Env) (w : World) (req : Request)
    (res : Response) (w1 : World) : updateUserCoverImage env w req ≠ (.ok res, w1) := by
  unfold updateUserCoverImage
  intro h
  dsimp only at h
  split at h <;> simp at h

/-- C9 (the code departs from the claim): a file is present and the upload would
succeed with a URL.  `updateUserAvatar` uploads the file and then throws a
ReferenceError; `updateUserCoverImage` throws a ReferenceError before any upload.
Neither replaces a URL nor responds: the stored users are unchanged. -/
theorem updateUserAvatar_and_cover_throw_reference_error :
    sampleEnv.uploadOnCloudinary (some "/tmp/new.png")
      = .response (some "https://cdn/tmp/new.png") ∧
    updateUserAvatar sampleEnv aliceWorld uploadOneFile =
      (.error (.referenceError "Cannot access user before initialization"),
       { aliceWorld with calls := [.upload (some "/tmp/new.png")] }) ∧
    updateUserCoverImage sampleEnv aliceWorld uploadOneFile =
      (.error (.referenceError "avatarLocalPath is not defined"), aliceWorld) := by
  decide

/-! ### getUserChannelProfile -/

/-- A missing or blank username is rejected with `ApiError(400)`. -/
theorem getUserChannelProfile_blank_username (env : Env) (w : World) (req : Request)
    (h : truthy (req.paramsUsername.map jsTrim) = false) :
    getUserChannelProfile env w req = (.error (.api 400 "Username is required"), w) := by
  unfold getUserChannelProfile
  simp [h]

/-- The pipeline the handler sends does not parse: for every username and
requesting user, `aggregate` throws. -/
theorem aggregate_channelPipeline_throws (w : World) (username userId : JsVal) :
    aggregate w (channelPipeline username userId)
      = .error (.thrown "Unrecognized expression") := by
  have hop : decide ("$condition" ∈ expressionOperators) = false := by decide
  simp [aggregate, channelPipeline, Stage.recognised, AggExpr.recognised, hop]

/-- For every username that is not blank, `getUserChannelProfile` throws the
error of the database: it returns neither a profile nor `ApiError(404)`. -/
theorem getUserChannelProfile_nonblank_throws (env : Env) (w : World) (req : Request)
    (h : truthy (req.paramsUsername.map jsTrim) = true) :
    getUserChannelProfile env w req = (.error (.thrown "Unrecognized expression"), w) := by
  unfold getUserChannelProfile
  simp [h, aggregate_channelPipeline_throws]

/-- Evaluation of the membership test wrapped in `$cond`. -/
theorem eval_cond_in (d : AggDoc) (v : JsVal) (path : List String) :
    (AggExpr.conditional "$cond" (.binary "$in" (.lit v) (.field path))
        (.lit (.bool true)) (.lit (.bool false))).eval d =
      match evalPath d path with
      | .array vs => .ok (.scalar (.bool (decide (v ∈ vs))))
      | _ => .error (.thrown "$in requires an array as a second argument") := by
  cases h : evalPath d path with
  | scalar x => simp [AggExpr.eval, h]
  | docs x => simp [AggExpr.eval, h]
  | array vs => by_cases hv : v ∈ vs <;> simp [AggExpr.eval, h, hv]

/-- The stages after `$match`, run on the document of one user. -/
theorem runStages_tail_single (w : World) (username userId : JsVal) (u : User) :
    runStages w (channelPipelineCond username userId).tail [userAggDoc u]
      = .ok [channelProfile w userId u] := by
  cases hr : u.refreshToken <;>
    simp only [channelPipelineCond, List.tail, runStages, runStage, List.map, mapDocs,
      addFieldsTo, eval_cond_in] <;>
    simp [userAggDoc, User.toDoc, hr, setField,
      scalarField, aggField, AggExpr.eval, evalPath, collectionDocs,
      channelProfile, edgesOf]

/-- A successful per-document step distributes over concatenation. -/
theorem mapDocs_append (f : AggDoc → Except Err AggDoc) (xs ys xs1 ys1 : List AggDoc)
    (hx : mapDocs f xs = .ok xs1) (hy : mapDocs f ys = .ok ys1) :
    mapDocs f (xs ++ ys) = .ok (xs1 ++ ys1) := by
  induction xs generalizing xs1 with
  | nil =>
    simp only [mapDocs, Except.ok.injEq] at hx
    subst hx
    simpa using hy
  | cons d rest ih =>
    simp only [mapDocs] at hx
    cases hd : f d with
    | error e => simp [hd] at hx
    | ok d1 =>
      cases hrest : mapDocs f rest with
      | error e => simp [hd, hrest] at hx
      | ok rest1 =>
        simp only [hd, hrest, Except.ok.injEq] at hx
        subst hx
        simp [mapDocs, hd, ih rest1 hrest]

/-- A stage other than `$match` acts on each document by itself. -/
theorem runStage_append (w : World) (st : Stage) (xs ys xs1 ys1 : List AggDoc)
    (hx : runStage w xs st = .ok xs1) (hy : runStage w ys st = .ok ys1) :
    runStage w (xs ++ ys) st = .ok (xs1 ++ ys1) := by
  cases st with
  | matchEq field value =>
    simp only [runStage, Except.ok.injEq] at hx hy ⊢
    rw [← hx, ← hy, List.filter_append]
  | lookup collection localField foreignField asField =>
    simp only [runStage, Except.ok.injEq] at hx hy ⊢
    rw [← hx, ← hy, List.map_append]
  | addFields fields =>
    simp only [runStage] at hx hy ⊢
    exact mapDocs_append _ _ _ _ _ hx hy
  | project fields =>
    simp only [runStage, Except.ok.injEq] at hx hy ⊢
    rw [← hx, ← hy, List.map_append]

/-- A successful run of a pipeline distributes over concatenation. -/
theorem runStages_append (w : World) (stages : List Stage) (xs ys xs1 ys1 : List AggDoc)
    (hx : runStages w stages xs = .ok xs1) (hy : runStages w stages ys = .ok ys1) :
    runStages w stages (xs ++ ys) = .ok (xs1 ++ ys1) := by
  induction stages generalizing xs ys with
  | nil =>
    simp only [runStages, Except.ok.injEq] at hx hy ⊢
    rw [hx, hy]
  | cons st rest ih =>
    simp only [runStages] at hx hy ⊢
    cases hsx : runStage w xs st with
    | error e => simp [hsx] at hx
    | ok xs2 =>
      cases hsy : runStage w ys st with
      | error e => simp [hsy] at hy
      | ok ys2 =>
        rw [hsx] at hx
        rw [hsy] at hy
        rw [runStage_append w st xs ys xs2 ys2 hsx hsy]
        exact ih xs2 ys2 hx hy

/-- The stages after `$match`, run on the documents of any users. -/
theorem runStages_tail_users (w : World) (username userId : JsVal) (us : List User) :
    runStages w (channelPipelineCond username userId).tail (us.map userAggDoc)
      = .ok (us.map (channelProfile w userId)) := by
  induction us with
  | nil => simp [channelPipelineCond, runStages, runStage, mapDocs]
  | cons u rest ih =>
    exact runStages_append w _ [userAggDoc u] (rest.map userAggDoc) _ _
      (runStages_tail_single w username userId u) ih

/-- The stage `$match` keeps the documents of the users with that username. -/
theorem match_username (us : List User) (name : String) :
    (us.map userAggDoc).filter (fun d => scalarField d "username" = JsVal.str name)
      = (us.filter (fun u => u.username = name)).map userAggDoc := by
  induction us with
  | nil => rfl
  | cons u rest ih =>
    have hname : scalarField (userAggDoc u) "username" = JsVal.str u.username := by
      cases hr : u.refreshToken <;> simp [userAggDoc, User.toDoc, hr, scalarField, aggField]
    by_cases h : u.username = name <;>
      simp [List.filter_cons, hname, h, ih]

/-- With the operator spelled `$cond` the pipeline parses and computes, for every
store, the profile of each user with the requested username. -/
theorem aggregate_channelPipelineCond (w : World) (name : String) (userId : JsVal) :
    aggregate w (channelPipelineCond (.str name) userId)
      = .ok ((w.users.filter (fun u => u.username = name)).map (channelProfile w userId)) := by
  have hsize : decide ("$size" ∈ expressionOperators) = true := by decide
  have hin : decide ("$in" ∈ expressionOperators) = true := by decide
  have hcond : decide ("$cond" ∈ expressionOperators) = true := by decide
  have hparse : (channelPipelineCond (.str name) userId).all Stage.recognised = true := by
    simp [channelPipelineCond, Stage.recognised, AggExpr.recognised, hsize, hin, hcond]
  have htail := runStages_tail_users w (.str name) userId
    (w.users.filter (fun u => u.username = name))
  unfold aggregate
  rw [if_pos hparse]
  have hsplit : channelPipelineCond (.str name) userId
      = .matchEq "username" (.str name) :: (channelPipelineCond (.str name) userId).tail := rfl
  rw [hsplit, runStages]
  simp only [runStage]
  rw [match_username]
  exact htail

/-- Number of subscription documents whose field has the `_id` of the user. -/
theorem edgesOf_channel_length (w : World) (u : User) :
    (edgesOf w "channel" u).length
      = (w.subscriptions.filter (fun s => s.channel = u._id)).length := by
  have hget : ∀ s : Subscription, getProp s.toDoc "channel" = .num s.channel := fun _ => rfl
  unfold edgesOf
  induction w.subscriptions with
  | nil => rfl
  | cons s rest ih =>
    by_cases h : s.channel = u._id <;>
      simp [List.filter_cons, hget, h, ih]

/-- Number of subscription documents whose subscriber is the user. -/
theorem edgesOf_subscriber_length (w : World) (u : User) :
    (edgesOf w "subscriber" u).length
      = (w.subscriptions.filter (fun s => s.subscriber = u._id)).length := by
  have hget : ∀ s : Subscription, getProp s.toDoc "subscriber" = .num s.subscriber :=
    fun _ => rfl
  unfold edgesOf
  induction w.subscriptions with
  | nil => rfl
  | cons s rest ih =>
    by_cases h : s.subscriber = u._id <;>
      simp [List.filter_cons, hget, h, ih]

/-- The requesting user is among the subscribers of the joined edges exactly when
one of the edges into the channel starts at that user. -/
theorem mem_edgesOf_subscribers (w : World) (u : User) (requester : Option Nat) :
    JsVal.ofId requester ∈ (edgesOf w "channel" u).map (fun x => getProp x "subscriber")
      ↔ ∃ s ∈ w.subscriptions, s.channel = u._id ∧ some s.subscriber = requester := by
  unfold edgesOf
  simp only [List.mem_map, List.mem_filter, decide_eq_true_eq]
  constructor
  · rintro ⟨x, ⟨⟨s, hs, rfl⟩, hch⟩, hsub⟩
    refine ⟨s, hs, ?_, ?_⟩
    · simpa [Subscription.toDoc, getProp] using hch
    · cases requester with
      | none => simp [Subscription.toDoc, getProp, JsVal.ofId] at hsub
      | some r => simpa [Subscription.toDoc, getProp, JsVal.ofId] using hsub
  · rintro ⟨s, hs, hch, hsub⟩
    refine ⟨s.toDoc, ⟨⟨s, hs, rfl⟩, ?_⟩, ?_⟩
    · simp [Subscription.toDoc, getProp, hch]
    · subst hsub
      simp [Subscription.toDoc, getProp, JsVal.ofId]

/-- With the operator spelled `$cond`, a username that names a stored channel with
N incoming and M outgoing subscription edges gets a profile with
`subscribersCount` N and `channelsSubscribedToCount` M, and `isSubscribed` is
true exactly when an incoming edge starts at the requesting user. -/
theorem aggregate_channelPipelineCond_counts (w : World) (name : String)
    (requester : Option Nat) (u : User) (rest : List User)
    (h : w.users.filter (fun x => x.username = name) = u :: rest) :
    ∃ d ds, aggregate w (channelPipelineCond (.str name) (JsVal.ofId requester)) = .ok (d :: ds) ∧
      aggField d "subscribersCount" = some (.scalar (.num
        (w.subscriptions.filter (fun s => s.channel = u._id)).length)) ∧
      aggField d "channelsSubscribedToCount" = some (.scalar (.num
        (w.subscriptions.filter (fun s => s.subscriber = u._id)).length)) ∧
      aggField d "isSubscribed" = some (.scalar (.bool (decide
        (∃ s ∈ w.subscriptions, s.channel = u._id ∧ some s.subscriber = requester)))) := by
  refine ⟨channelProfile w (JsVal.ofId requester) u,
    rest.map (channelProfile w (JsVal.ofId requester)), ?_, ?_, ?_, ?_⟩
  · rw [aggregate_channelPipelineCond, h]
    rfl
  · simp [channelProfile, aggField, edgesOf_channel_length]
  · simp [channelProfile, aggField, edgesOf_subscriber_length]
  · have hiff := mem_edgesOf_subscribers w u requester
    simp only [channelProfile, aggField, List.find?, decide_eq_true_eq]
    simp [hiff]

/-- With the operator spelled `$cond` the pipeline parses, and on `aliceWorld` it
yields the profile of the channel with two subscribers, one subscribed channel,
and `isSubscribed` true for the subscriber 2. -/
theorem aggregate_channelPipelineCond_sample :
    aggregate aliceWorld (channelPipelineCond (.str "alice") (.num 2)) =
      .ok [[("_id", .scalar (.num 1)), ("username", .scalar (.str "alice")),
            ("email", .scalar (.str "alice@example.com")),
            ("fullName", .scalar (.str "Alice")),
            ("avatar", .scalar (.str "https://cdn/a.png")),
            ("coverImage", .scalar (.str "")),
            ("subscribersCount", .scalar (.num 2)),
            ("channelsSubscribedToCount", .scalar (.num 1)),
            ("isSubscribed", .scalar (.bool true))]] := by
  decide

/-- C10 (the code departs from the claim): the channel `alice` exists, with two
incoming subscription edges (one of them from the requesting user 2) and one
outgoing edge.  The handler returns no profile: the database rejects the
pipeline and the handler throws that error. -/
theorem getUserChannelProfile_existing_channel_throws :
    alice ∈ aliceWorld.users ∧
    (aliceWorld.subscriptions.filter (fun s => s.channel = alice._id)).length = 2 ∧
    (aliceWorld.subscriptions.filter (fun s => s.subscriber = alice._id)).length = 1 ∧
    getUserChannelProfile sampleEnv aliceWorld profileOfAlice
      = (.error (.thrown "Unrecognized expression"), aliceWorld) := by
  decide

end UserController
